import Mathlib

/-!
Shallow embedding of the CRM application's page logic and SQL migration.

Sources embedded:
  - `src/pages/Leads.tsx` (state, fetchLeads/fetchNotes, updateLeadStatus,
    addNote, getLeadsByStatus, recent-notes rendering, realtime handlers);
  - `src/pages/HandleCustomer.tsx` (state, fetchLeads/fetchFollowUps,
    handleFollowUp, updateLeadStatus, recent-follow-ups rendering,
    realtime handlers);
  - `src/supabase/migrations/20250804081132_blue_unit.sql` (delete/seed/
    publication/policy statements).

The backing database is modelled explicitly: each operation takes the
current server-side rows, an outcome for the write call (success, an
error object returned in the response, or a thrown exception) and a flag
saying whether a triggered refetch returned data.  Timestamps are `Nat`;
`order by created_at desc` is modelled by an insertion sort on the key.
-/

/-- A row of the `leads` table as surfaced to the client
(`src/types`, used by both pages). -/
structure Lead where
  id : String
  name : String
  email : String
  phone : String
  product : Option String
  status : String
  created_at : Nat
deriving Repr, DecidableEq

/-- A row of the `notes` table (Leads page). -/
structure Note where
  id : String
  lead_id : String
  content : String
  created_by : String
  created_at : Nat
deriving Repr, DecidableEq

/-- A row of the `follow_ups` table (HandleCustomer page). -/
structure FollowUp where
  id : String
  lead_id : String
  notes : String
  follow_up_date : Nat
  created_at : Nat
deriving Repr, DecidableEq

/-- Local component state of the Leads page (`Leads.tsx` lines 11-17).
The `viewMode` field is omitted: purely presentational, no claim uses it. -/
structure LeadsPageState where
  leads : List Lead
  notes : List Note
  loading : Bool
  selectedLead : Option Lead
  noteText : String
  submitting : Bool
deriving Repr, DecidableEq

/-- Local component state of the HandleCustomer page
(`HandleCustomer.tsx` lines 10-15). -/
structure HCPageState where
  leads : List Lead
  followUps : List FollowUp
  loading : Bool
  selectedLead : Option Lead
  followUpText : String
  submitting : Bool
deriving Repr, DecidableEq

/-- Outcome of a single awaited write call to the backend: the call may
succeed, return an error object in the response (`const { error } = ...`
with `error` non-null), or throw an exception caught by `catch`. -/
inductive WriteOutcome where
  | success
  | errorObj (msg : String)
  | thrown (msg : String)
deriving Repr, DecidableEq

/-- Observable side effects of one operation: how many network requests
were issued and what was written to the diagnostic console
(`console.error`). -/
structure StepEffects where
  networkCalls : Nat
  consoleLogs : List String
deriving Repr, DecidableEq

/-- Result of running one page operation: the new page state, the new
server-side rows of the affected table, and the observable effects. -/
structure OpResult (σ τ : Type) where
  page : σ
  server : τ
  effects : StepEffects
deriving Repr, DecidableEq

/-- Drop leading whitespace characters from a character list. -/
def dropLeadingWs : List Char → List Char
  | [] => []
  | c :: cs => if c.isWhitespace then dropLeadingWs cs else c :: cs

/-- JavaScript `String.prototype.trim()`: strip leading and trailing
whitespace.  The guards only ever test the result for emptiness. -/
def jsTrim (s : String) : String :=
  String.mk ((dropLeadingWs ((dropLeadingWs s.data).reverse)).reverse)

/-- Insert `x` into a list sorted descending by `key`, keeping it sorted. -/
def insertByKeyDesc (key : α → Nat) (x : α) : List α → List α
  | [] => [x]
  | y :: ys => if key y ≤ key x then x :: y :: ys else y :: insertByKeyDesc key x ys

/-- Sort a list descending by `key`; models the backend's
`order by created_at desc` on a snapshot read. -/
def sortByKeyDesc (key : α → Nat) : List α → List α
  | [] => []
  | x :: xs => insertByKeyDesc key x (sortByKeyDesc key xs)

/-- Snapshot the server returns for `select * from leads order by
created_at desc` (both pages). -/
def fetchLeadsData (srvLeads : List Lead) : List Lead :=
  sortByKeyDesc Lead.created_at srvLeads

/-- Snapshot the server returns for the notes query of `fetchNotes`. -/
def fetchNotesData (srvNotes : List Note) : List Note :=
  sortByKeyDesc Note.created_at srvNotes

/-- Snapshot the server returns for the follow-ups query of
`fetchFollowUps`. -/
def fetchFollowUpsData (srvFollowUps : List FollowUp) : List FollowUp :=
  sortByKeyDesc FollowUp.created_at srvFollowUps

/-- `fetchLeads` of `Leads.tsx` (lines 51-58): `if (data) setLeads(data)`;
when the backend returns no data (`ok = false`) nothing is stored. -/
def fetchLeads (s : LeadsPageState) (srvLeads : List Lead) (ok : Bool) : LeadsPageState :=
  if ok then { s with leads := fetchLeadsData srvLeads } else s

/-- `fetchNotes` of `Leads.tsx` (lines 60-67). -/
def fetchNotes (s : LeadsPageState) (srvNotes : List Note) (ok : Bool) : LeadsPageState :=
  if ok then { s with notes := fetchNotesData srvNotes } else s

/-- `fetchLeads` of `HandleCustomer.tsx` (lines 49-56). -/
def fetchLeadsHC (s : HCPageState) (srvLeads : List Lead) (ok : Bool) : HCPageState :=
  if ok then { s with leads := fetchLeadsData srvLeads } else s

/-- `fetchFollowUps` of `HandleCustomer.tsx` (lines 58-65). -/
def fetchFollowUps (s : HCPageState) (srvFollowUps : List FollowUp) (ok : Bool) : HCPageState :=
  if ok then { s with followUps := fetchFollowUpsData srvFollowUps } else s

/-- The note row the backend stores for the insert in `addNote`
(`Leads.tsx` lines 89-95): the client supplies `lead_id`, `content` (the
untrimmed text) and `created_by`; the server assigns id and timestamp. -/
def mkNote (newId lead_id content created_by : String) (created_at : Nat) : Note :=
  { id := newId, lead_id := lead_id, content := content,
    created_by := created_by, created_at := created_at }

/-- The follow-up row the backend stores for the insert in
`handleFollowUp` (`HandleCustomer.tsx` lines 72-78): the client supplies
`lead_id`, `notes` and `follow_up_date` (current time); the server
assigns id and timestamp. -/
def mkFollowUp (newId lead_id fuNotes : String) (follow_up_date created_at : Nat) : FollowUp :=
  { id := newId, lead_id := lead_id, notes := fuNotes,
    follow_up_date := follow_up_date, created_at := created_at }

/-- `addNote` of `Leads.tsx` (lines 84-107).  Guard: return immediately
when no lead is selected or the text trims to empty.  Otherwise issue the
insert; on success clear `noteText` and `selectedLead` and refetch notes
(`fetchOk` says whether that refetch returned data); on a returned error
object do nothing further; on a thrown exception log to the console.
`finally` always leaves `submitting` false once the call settles. -/
def addNote (s : LeadsPageState) (srvNotes : List Note) (outcome : WriteOutcome)
    (fetchOk : Bool) (newId : String) (now : Nat) :
    OpResult LeadsPageState (List Note) :=
  match s.selectedLead with
  | none => ⟨s, srvNotes, ⟨0, []⟩⟩
  | some lead =>
    if jsTrim s.noteText = "" then ⟨s, srvNotes, ⟨0, []⟩⟩
    else
      match outcome with
      | .success =>
        let srvNotes' := srvNotes ++ [mkNote newId lead.id s.noteText "current_user" now]
        let s' := fetchNotes { s with noteText := "", selectedLead := none } srvNotes' fetchOk
        ⟨{ s' with submitting := false }, srvNotes', ⟨2, []⟩⟩
      | .errorObj _ => ⟨{ s with submitting := false }, srvNotes, ⟨1, []⟩⟩
      | .thrown msg =>
        ⟨{ s with submitting := false }, srvNotes, ⟨1, ["Error adding note: " ++ msg]⟩⟩

/-- `handleFollowUp` of `HandleCustomer.tsx` (lines 67-90), same shape as
`addNote` with `follow_up_date` set to the current time. -/
def handleFollowUp (s : HCPageState) (srvFollowUps : List FollowUp) (outcome : WriteOutcome)
    (fetchOk : Bool) (newId : String) (now : Nat) :
    OpResult HCPageState (List FollowUp) :=
  match s.selectedLead with
  | none => ⟨s, srvFollowUps, ⟨0, []⟩⟩
  | some lead =>
    if jsTrim s.followUpText = "" then ⟨s, srvFollowUps, ⟨0, []⟩⟩
    else
      match outcome with
      | .success =>
        let srv' := srvFollowUps ++ [mkFollowUp newId lead.id s.followUpText now now]
        let s' := fetchFollowUps { s with followUpText := "", selectedLead := none } srv' fetchOk
        ⟨{ s' with submitting := false }, srv', ⟨2, []⟩⟩
      | .errorObj _ => ⟨{ s with submitting := false }, srvFollowUps, ⟨1, []⟩⟩
      | .thrown msg =>
        ⟨{ s with submitting := false }, srvFollowUps, ⟨1, ["Error adding follow-up: " ++ msg]⟩⟩

/-- Effect on the server of `update({ status }).eq('id', leadId)`: every
row whose id matches gets the new status, no other row changes; no
condition on the prior status is evaluated anywhere. -/
def serverUpdateLeadStatus (srvLeads : List Lead) (leadId newStatus : String) : List Lead :=
  srvLeads.map (fun l => if l.id = leadId then { l with status := newStatus } else l)

/-- `updateLeadStatus` of `Leads.tsx` (lines 69-82): issue the update
unconditionally; on success refetch leads; on a returned error object do
nothing; on a thrown exception log.  `submitting` is not used. -/
def updateLeadStatus (s : LeadsPageState) (srvLeads : List Lead) (leadId newStatus : String)
    (outcome : WriteOutcome) (fetchOk : Bool) : OpResult LeadsPageState (List Lead) :=
  match outcome with
  | .success =>
    let srv' := serverUpdateLeadStatus srvLeads leadId newStatus
    ⟨fetchLeads s srv' fetchOk, srv', ⟨2, []⟩⟩
  | .errorObj _ => ⟨s, srvLeads, ⟨1, []⟩⟩
  | .thrown msg => ⟨s, srvLeads, ⟨1, ["Error updating lead status: " ++ msg]⟩⟩

/-- `updateLeadStatus` of `HandleCustomer.tsx` (lines 92-105), identical
logic on the HandleCustomer page state. -/
def updateLeadStatusHC (s : HCPageState) (srvLeads : List Lead) (leadId newStatus : String)
    (outcome : WriteOutcome) (fetchOk : Bool) : OpResult HCPageState (List Lead) :=
  match outcome with
  | .success =>
    let srv' := serverUpdateLeadStatus srvLeads leadId newStatus
    ⟨fetchLeadsHC s srv' fetchOk, srv', ⟨2, []⟩⟩
  | .errorObj _ => ⟨s, srvLeads, ⟨1, []⟩⟩
  | .thrown msg => ⟨s, srvLeads, ⟨1, ["Error updating lead status: " ++ msg]⟩⟩

/-- The tables of the database schema named anywhere in the repository. -/
inductive Table where
  | users
  | products
  | packages
  | leads
  | notes
  | targets
  | handle_customer_data
  | follow_ups
deriving Repr, DecidableEq

/-- Realtime dispatch of the Leads page (`Leads.tsx` lines 23-37): one
channel per subscribed table; a change event on the `leads` channel runs
`() => fetchLeads()`, one on the `notes` channel runs `() => fetchNotes()`;
events on other tables reach no handler.  The result lists the tables
whose full snapshot is refetched for that one event. -/
def leadsPageOnEvent : Table → List Table
  | .leads => [.leads]
  | .notes => [.notes]
  | _ => []

/-- Realtime dispatch of the HandleCustomer page
(`HandleCustomer.tsx` lines 21-35): `leads` and `follow_ups` channels. -/
def hcPageOnEvent : Table → List Table
  | .leads => [.leads]
  | .follow_ups => [.follow_ups]
  | _ => []

/-- All refetches the Leads page performs for a stream of change events,
in order; each event is handled independently (no batching). -/
def leadsPageRefetches (evs : List Table) : List Table :=
  evs.flatMap leadsPageOnEvent

/-- All refetches the HandleCustomer page performs for a stream of
change events, in order. -/
def hcPageRefetches (evs : List Table) : List Table :=
  evs.flatMap hcPageOnEvent

/-- The lead name shown for a note or follow-up row: both renders
evaluate `leads.find(l => l.id === row.lead_id)` and then
`lead?.name || 'Unknown Lead'` (`Leads.tsx` lines 287-293,
`HandleCustomer.tsx` lines 235-240).  JS `||` falls back on any falsy
value, so an empty name string also yields the fallback.  The function is
total: rendering cannot fail. -/
def renderedLeadName (leads : List Lead) (lead_id : String) : String :=
  match leads.find? (fun l => l.id == lead_id) with
  | some l => if l.name = "" then "Unknown Lead" else l.name
  | none => "Unknown Lead"

/-- JavaScript `Array.prototype.slice(start, stop)` for the in-range
arguments used by the renders. -/
def jsSlice (xs : List α) (start stop : Nat) : List α :=
  (xs.drop start).take (stop - start)

/-- The notes actually rendered by the Recent Notes panel:
`notes.slice(0, 5)` (`Leads.tsx` line 287). -/
def recentNotesRendered (ns : List Note) : List Note :=
  jsSlice ns 0 5

/-- The follow-ups actually rendered by the Recent Follow-ups panel:
`followUps.slice(0, 10)` (`HandleCustomer.tsx` line 235). -/
def recentFollowUpsRendered (fus : List FollowUp) : List FollowUp :=
  jsSlice fus 0 10

/-- `getLeadsByStatus` of `Leads.tsx` (lines 119-121):
`leads.filter(lead => lead.status === status)`. -/
def getLeadsByStatus (leads : List Lead) (status : String) : List Lead :=
  leads.filter (fun lead => lead.status == status)

/-- The four status labels the stats cards query
(`Leads.tsx` lines 152-193). -/
def leadStatusLabels : List String :=
  ["new", "contacted", "qualified", "closed"]

/-- A row of the `users` table with the columns the migration writes. -/
structure UserRow where
  id : String
  username : String
  nama_lengkap : String
  role : String
  nomor_wa : String
  aktif : Bool
  avatar : String
deriving Repr, DecidableEq

/-- A policy installed in the database: its table, its name, and the
command it applies to (here always "SELECT"). -/
structure PolicyRec where
  table : Table
  name : String
  cmd : String
deriving Repr, DecidableEq

/-- One SQL statement of the migration, restricted to the statement forms
the migration file actually contains. -/
inductive MigStmt where
  | deleteAll (t : Table)
  | upsertUser (r : UserRow)
  | addPublicationTable (t : Table)
  | dropPolicyIfExists (t : Table) (name : String)
  | createPolicy (t : Table) (name : String) (cmd : String)
deriving Repr, DecidableEq

/-- Database state acted on by the migration: the rows of each table
(rows of tables other than `users` are opaque `Nat` payloads, only their
presence matters), the realtime publication's table list, and the
installed policies. -/
structure DBState where
  usersRows : List UserRow
  productsRows : List Nat
  packagesRows : List Nat
  leadsRows : List Nat
  notesRows : List Nat
  targetsRows : List Nat
  handleCustomerRows : List Nat
  followUpsRows : List Nat
  publication : List Table
  policies : List PolicyRec
deriving Repr, DecidableEq

/-- `DELETE FROM t`: all rows of `t` are removed, nothing else changes. -/
def deleteTable (db : DBState) : Table → DBState
  | .users => { db with usersRows := [] }
  | .products => { db with productsRows := [] }
  | .packages => { db with packagesRows := [] }
  | .leads => { db with leadsRows := [] }
  | .notes => { db with notesRows := [] }
  | .targets => { db with targetsRows := [] }
  | .handle_customer_data => { db with handleCustomerRows := [] }
  | .follow_ups => { db with followUpsRows := [] }

/-- `INSERT ... ON CONFLICT (id) DO UPDATE SET <every non-id column> =
EXCLUDED.<column>`: if a row with the id exists it is overwritten column
by column, otherwise the row is appended. -/
def upsertUserById (rows : List UserRow) (r : UserRow) : List UserRow :=
  if rows.any (fun u => u.id == r.id) then
    rows.map (fun u =>
      if u.id == r.id then
        { u with username := r.username, nama_lengkap := r.nama_lengkap,
                 role := r.role, nomor_wa := r.nomor_wa, aktif := r.aktif,
                 avatar := r.avatar }
      else u)
  else rows ++ [r]

/-- `ALTER PUBLICATION supabase_realtime ADD TABLE t`, modelled as adding
`t` to the publication's table set if absent. -/
def insertPub (pub : List Table) (t : Table) : List Table :=
  if t ∈ pub then pub else pub ++ [t]

/-- Effect of one migration statement on the database state. -/
def execStmt (db : DBState) : MigStmt → DBState
  | .deleteAll t => deleteTable db t
  | .upsertUser r => { db with usersRows := upsertUserById db.usersRows r }
  | .addPublicationTable t => { db with publication := insertPub db.publication t }
  | .dropPolicyIfExists t pname =>
    { db with policies := db.policies.filter (fun p => !(p.table == t && p.name == pname)) }
  | .createPolicy t pname c => { db with policies := db.policies ++ [⟨t, pname, c⟩] }

/-- The single user row seeded by the migration (lines 31-39). -/
def adminUser : UserRow :=
  { id := "550e8400-e29b-41d4-a716-446655440001", username := "admin",
    nama_lengkap := "Super Admin", role := "superadmin",
    nomor_wa := "6281234567890", aktif := true,
    avatar := "https://i.pravatar.cc/150?u=admin" }

/-- The statement list of
`src/supabase/migrations/20250804081132_blue_unit.sql`, in file order. -/
def migration : List MigStmt :=
  [ .deleteAll .notes,
    .deleteAll .handle_customer_data,
    .deleteAll .leads,
    .deleteAll .targets,
    .deleteAll .packages,
    .deleteAll .products,
    .deleteAll .users,
    .upsertUser adminUser,
    .addPublicationTable .users,
    .addPublicationTable .products,
    .addPublicationTable .packages,
    .addPublicationTable .leads,
    .addPublicationTable .notes,
    .addPublicationTable .targets,
    .addPublicationTable .handle_customer_data,
    .dropPolicyIfExists .users "Enable real-time for users",
    .createPolicy .users "Enable real-time for users" "SELECT",
    .dropPolicyIfExists .products "Enable real-time for products",
    .createPolicy .products "Enable real-time for products" "SELECT",
    .dropPolicyIfExists .packages "Enable real-time for packages",
    .createPolicy .packages "Enable real-time for packages" "SELECT",
    .dropPolicyIfExists .leads "Enable real-time for leads",
    .createPolicy .leads "Enable real-time for leads" "SELECT",
    .dropPolicyIfExists .notes "Enable real-time for notes",
    .createPolicy .notes "Enable real-time for notes" "SELECT",
    .dropPolicyIfExists .targets "Enable real-time for targets",
    .createPolicy .targets "Enable real-time for targets" "SELECT",
    .dropPolicyIfExists .handle_customer_data "Enable real-time for handle_customer_data",
    .createPolicy .handle_customer_data "Enable real-time for handle_customer_data" "SELECT" ]

/-- Run the whole migration on a database state. -/
def runMigration (db : DBState) : DBState :=
  migration.foldl execStmt db

/-- The seven tables the migration deletes from, in statement order. -/
def migrationDeleteTargets : List Table :=
  migration.filterMap (fun st =>
    match st with
    | .deleteAll t => some t
    | _ => none)

/-- Table and command of every policy the migration creates, in
statement order. -/
def migrationCreatedPolicies : List (Table × String) :=
  migration.filterMap (fun st =>
    match st with
    | .createPolicy t _ c => some (t, c)
    | _ => none)

/-- A concrete lead used by witnesses. -/
def sampleLead : Lead :=
  { id := "lead-1", name := "Alice", email := "alice@example.com",
    phone := "555-0101", product := some "basic", status := "new",
    created_at := 3 }

/-- A concrete closed lead used by witnesses. -/
def closedLead : Lead :=
  { id := "lead-9", name := "Bob", email := "bob@example.com",
    phone := "555-0102", product := none, status := "closed",
    created_at := 5 }

/-- A concrete Leads-page state with a selected lead and non-blank note
text, used by witnesses and the C3 counterexample. -/
def cexLeadsState : LeadsPageState :=
  { leads := [sampleLead], notes := [], loading := false,
    selectedLead := some sampleLead, noteText := "hello", submitting := false }

/-- A concrete HandleCustomer-page state with a selected lead and
non-blank follow-up text, used by witnesses. -/
def cexHCState : HCPageState :=
  { leads := [sampleLead], followUps := [], loading := false,
    selectedLead := some sampleLead, followUpText := "call back", submitting := false }

/-- A concrete Leads-page state hitting the guard clause (no selected
lead, whitespace-only text), used by witnesses. -/
def guardLeadsState : LeadsPageState :=
  { leads := [], notes := [], loading := false,
    selectedLead := none, noteText := "  ", submitting := false }

/-- A concrete HandleCustomer-page state hitting the guard clause
(whitespace-only text), used by witnesses. -/
def guardHCState : HCPageState :=
  { leads := [sampleLead], followUps := [], loading := false,
    selectedLead := some sampleLead, followUpText := " ", submitting := false }

theorem mem_insertByKeyDesc {key : α → Nat} {x a : α} {l : List α} :
    a ∈ insertByKeyDesc key x l ↔ a = x ∨ a ∈ l := by
  induction l with
  | nil => simp [insertByKeyDesc]
  | cons y ys ih =>
    unfold insertByKeyDesc
    split
    · simp
    · simp only [List.mem_cons, ih]
      tauto

theorem mem_sortByKeyDesc {key : α → Nat} {a : α} {l : List α} :
    a ∈ sortByKeyDesc key l ↔ a ∈ l := by
  induction l with
  | nil => simp [sortByKeyDesc]
  | cons x xs ih => simp [sortByKeyDesc, mem_insertByKeyDesc, ih]

theorem mem_insertPub_iff (pub : List Table) (a t : Table) :
    a ∈ insertPub pub t ↔ a ∈ pub ∨ a = t := by
  unfold insertPub
  split
  · next h =>
    constructor
    · exact Or.inl
    · rintro (h1 | rfl) <;> [exact h1; exact h]
  · simp [List.mem_append]

/-- C2: `updateLeadStatus` (on either page) unconditionally issues the
update for any target status and any prior status — the issued request
count is at least one for every outcome, on success every matching
server row takes the new status whatever it held before, the observable
effects do not depend on the server's prior rows (no transition-graph
check anywhere in the operation), and in particular `closed` to `new`
succeeds. -/
theorem updateLeadStatus_unconditional
    (s : LeadsPageState) (sh : HCPageState) (srvA srvB : List Lead)
    (leadId newStatus : String) (outcome : WriteOutcome) (fetchOk : Bool) :
    1 ≤ (updateLeadStatus s srvA leadId newStatus outcome fetchOk).effects.networkCalls
  ∧ 1 ≤ (updateLeadStatusHC sh srvA leadId newStatus outcome fetchOk).effects.networkCalls
  ∧ (∀ l, l ∈ (updateLeadStatus s srvA leadId newStatus .success fetchOk).server →
        l.id = leadId → l.status = newStatus)
  ∧ (∀ l, l ∈ (updateLeadStatusHC sh srvA leadId newStatus .success fetchOk).server →
        l.id = leadId → l.status = newStatus)
  ∧ (updateLeadStatus s srvA leadId newStatus outcome fetchOk).effects
      = (updateLeadStatus s srvB leadId newStatus outcome fetchOk).effects
  ∧ (updateLeadStatus s [closedLead] closedLead.id "new" .success fetchOk).server
      = [{ closedLead with status := "new" }] := by
  refine ⟨?_, ?_, ?_, ?_, ?_, ?_⟩
  · cases outcome <;> simp [updateLeadStatus]
  · cases outcome <;> simp [updateLeadStatusHC]
  · intro l hl hid
    simp only [updateLeadStatus, serverUpdateLeadStatus, List.mem_map] at hl
    obtain ⟨x, hx, rfl⟩ := hl
    by_cases hxid : x.id = leadId
    · simp [hxid]
    · simp only [if_neg hxid] at hid
      exact absurd hid hxid
  · intro l hl hid
    simp only [updateLeadStatusHC, serverUpdateLeadStatus, List.mem_map] at hl
    obtain ⟨x, hx, rfl⟩ := hl
    by_cases hxid : x.id = leadId
    · simp [hxid]
    · simp only [if_neg hxid] at hid
      exact absurd hid hxid
  · cases outcome <;> rfl
  · rfl

/-- Witness for C2: the concrete closed-to-new transition. -/
theorem updateLeadStatus_unconditional_witness :
    ({ closedLead with status := "new" } : Lead).status = "new" :=
  (updateLeadStatus_unconditional cexLeadsState cexHCState [closedLead] [] closedLead.id
      "new" .success true).2.2.1 { closedLead with status := "new" } (by decide) (by decide)

/-- C3 counterexample: a write that fails with an error object returned
in the response (not thrown) is performed (one network call) yet writes
nothing to the console — refuting the claim that every failing write is
logged whether reported as a returned error object or as a thrown
exception. -/
theorem addNote_returnedError_not_logged :
    (addNote cexLeadsState [] (.errorObj "insert failed") true "n1" 10).effects.networkCalls = 1
  ∧ (addNote cexLeadsState [] (.errorObj "insert failed") true "n1" 10).effects.consoleLogs
      = [] := by
  decide

/-- C3 amended: for every failing user-initiated write, the submitting
flag is back to false once the call settles for `addNote` and
`handleFollowUp` (`updateLeadStatus` never touches it and leaves the
state unchanged), and no error is surfaced to the end user beyond
console output; a failure thrown as an exception is logged to the
diagnostic console, while a failure returned as an error object is not
logged. -/
theorem writes_failure_handling
    (s : LeadsPageState) (sh : HCPageState) (srvN : List Note) (srvF : List FollowUp)
    (srvL : List Lead) (lead : Lead) (msg leadId newStatus newId : String)
    (fetchOk : Bool) (now : Nat) :
    (s.selectedLead = some lead → jsTrim s.noteText ≠ "" →
      (addNote s srvN (.errorObj msg) fetchOk newId now).page = { s with submitting := false }
      ∧ (addNote s srvN (.errorObj msg) fetchOk newId now).effects.consoleLogs = []
      ∧ (addNote s srvN (.thrown msg) fetchOk newId now).page = { s with submitting := false }
      ∧ (addNote s srvN (.thrown msg) fetchOk newId now).effects.consoleLogs
          = ["Error adding note: " ++ msg])
  ∧ (sh.selectedLead = some lead → jsTrim sh.followUpText ≠ "" →
      (handleFollowUp sh srvF (.errorObj msg) fetchOk newId now).page
          = { sh with submitting := false }
      ∧ (handleFollowUp sh srvF (.errorObj msg) fetchOk newId now).effects.consoleLogs = []
      ∧ (handleFollowUp sh srvF (.thrown msg) fetchOk newId now).page
          = { sh with submitting := false }
      ∧ (handleFollowUp sh srvF (.thrown msg) fetchOk newId now).effects.consoleLogs
          = ["Error adding follow-up: " ++ msg])
  ∧ ((updateLeadStatus s srvL leadId newStatus (.errorObj msg) fetchOk).page = s
      ∧ (updateLeadStatus s srvL leadId newStatus (.errorObj msg)
          fetchOk).effects.consoleLogs = []
      ∧ (updateLeadStatus s srvL leadId newStatus (.thrown msg) fetchOk).page = s
      ∧ (updateLeadStatus s srvL leadId newStatus (.thrown msg) fetchOk).effects.consoleLogs
          = ["Error updating lead status: " ++ msg]
      ∧ (updateLeadStatusHC sh srvL leadId newStatus (.errorObj msg) fetchOk).page = sh
      ∧ (updateLeadStatusHC sh srvL leadId newStatus (.thrown msg) fetchOk).page = sh) := by
  refine ⟨?_, ?_, ⟨rfl, rfl, rfl, rfl, rfl, rfl⟩⟩
  · intro hsel htxt
    unfold addNote
    rw [hsel]
    simp [htxt]
  · intro hsel htxt
    unfold handleFollowUp
    rw [hsel]
    simp [htxt]

/-- Witness for C3's amended statement at a concrete failing write. -/
theorem writes_failure_handling_witness :
    (addNote cexLeadsState [] (.errorObj "x") true "n1" 3).page
        = { cexLeadsState with submitting := false }
  ∧ (addNote cexLeadsState [] (.errorObj "x") true "n1" 3).effects.consoleLogs = []
  ∧ (addNote cexLeadsState [] (.thrown "x") true "n1" 3).page
        = { cexLeadsState with submitting := false }
  ∧ (addNote cexLeadsState [] (.thrown "x") true "n1" 3).effects.consoleLogs
        = ["Error adding note: " ++ "x"] :=
  (writes_failure_handling cexLeadsState cexHCState [] [] [] sampleLead "x" "lead-1" "new"
      "n1" true 3).1 rfl (by decide)

/-- C4: when no lead is selected or the text trims to empty, `addNote`
and `handleFollowUp` perform no network call and leave the whole page
state and the server rows unchanged. -/
theorem guard_blocks
    (s : LeadsPageState) (sh : HCPageState) (srvN : List Note) (srvF : List FollowUp)
    (outcome : WriteOutcome) (fetchOk : Bool) (newId : String) (now : Nat)
    (hL : s.selectedLead = none ∨ jsTrim s.noteText = "")
    (hH : sh.selectedLead = none ∨ jsTrim sh.followUpText = "") :
    addNote s srvN outcome fetchOk newId now = ⟨s, srvN, ⟨0, []⟩⟩
  ∧ handleFollowUp sh srvF outcome fetchOk newId now = ⟨sh, srvF, ⟨0, []⟩⟩ := by
  constructor
  · unfold addNote
    cases hsel : s.selectedLead with
    | none => rfl
    | some lead =>
      rcases hL with h | h
      · simp [hsel] at h
      · simp [h]
  · unfold handleFollowUp
    cases hsel : sh.selectedLead with
    | none => rfl
    | some lead =>
      rcases hH with h | h
      · simp [hsel] at h
      · simp [h]

/-- Witness for C4 at concrete guard-hitting states. -/
theorem guard_blocks_witness :
    addNote guardLeadsState [] .success true "n1" 0 = ⟨guardLeadsState, [], ⟨0, []⟩⟩
  ∧ handleFollowUp guardHCState [] .success true "f1" 0 = ⟨guardHCState, [], ⟨0, []⟩⟩ :=
  guard_blocks guardLeadsState guardHCState [] [] .success true "n1" 0
    (Or.inl rfl) (Or.inr (by decide))

/-- C1: for the Leads page's `addNote`, if a lead is selected, the note
text does not trim to empty, and the backend insert succeeds, then after
the triggered refetch the notes list contains the newly inserted note,
`noteText` is the empty string, and `selectedLead` is `none`. -/
theorem addNote_success_postcondition
    (s : LeadsPageState) (srvNotes : List Note) (lead : Lead) (newId : String) (now : Nat)
    (hsel : s.selectedLead = some lead) (htxt : jsTrim s.noteText ≠ "") :
    mkNote newId lead.id s.noteText "current_user" now
        ∈ (addNote s srvNotes .success true newId now).page.notes
  ∧ (addNote s srvNotes .success true newId now).page.noteText = ""
  ∧ (addNote s srvNotes .success true newId now).page.selectedLead = none := by
  unfold addNote
  rw [hsel]
  simp only [htxt, if_false, fetchNotes, if_true, fetchNotesData]
  refine ⟨?_, by simp, by simp⟩
  rw [mem_sortByKeyDesc]
  simp

/-- Witness for C1 at a concrete state, selected lead and note text. -/
theorem addNote_success_postcondition_witness :
    mkNote "n1" sampleLead.id cexLeadsState.noteText "current_user" 7
        ∈ (addNote cexLeadsState [] .success true "n1" 7).page.notes
  ∧ (addNote cexLeadsState [] .success true "n1" 7).page.noteText = ""
  ∧ (addNote cexLeadsState [] .success true "n1" 7).page.selectedLead = none :=
  addNote_success_postcondition cexLeadsState [] sampleLead "n1" 7 rfl (by decide)

/-- C5: for each table subscribed by a mounted page (`leads` and `notes`
on the Leads page; `leads` and `follow_ups` on the HandleCustomer page),
the number of full-snapshot refetches of that table equals the number of
change events delivered on its channel, for every event stream: no
batching and no deduplication. -/
theorem refetch_count_eq_event_count (evs : List Table) :
    (leadsPageRefetches evs).count .leads = evs.count .leads
  ∧ (leadsPageRefetches evs).count .notes = evs.count .notes
  ∧ (hcPageRefetches evs).count .leads = evs.count .leads
  ∧ (hcPageRefetches evs).count .follow_ups = evs.count .follow_ups := by
  induction evs with
  | nil => simp [leadsPageRefetches, hcPageRefetches]
  | cons t ts ih =>
    obtain ⟨ih1, ih2, ih3, ih4⟩ := ih
    cases t <;>
      simp_all [leadsPageRefetches, hcPageRefetches, leadsPageOnEvent, hcPageOnEvent,
        List.count_cons]

/-- C6: every snapshot fetch that fails (the backend returns no data)
leaves the page state, and hence every local list and everything the user
sees, completely unchanged. -/
theorem fetch_failure_leaves_state
    (s : LeadsPageState) (sh : HCPageState) (srvL : List Lead) (srvN : List Note)
    (srvF : List FollowUp) :
    fetchLeads s srvL false = s ∧ fetchNotes s srvN false = s
  ∧ fetchLeadsHC sh srvL false = sh ∧ fetchFollowUps sh srvF false = sh :=
  ⟨rfl, rfl, rfl, rfl⟩

/-- C7: when a rendered note's or follow-up's `lead_id` matches no lead
in the loaded leads snapshot, the (total, hence never failing) name
render yields the literal fallback string "Unknown Lead"; both pages
render through `renderedLeadName`. -/
theorem unknown_lead_renders_fallback (leads : List Lead) (lead_id : String)
    (h : ∀ l ∈ leads, l.id ≠ lead_id) :
    renderedLeadName leads lead_id = "Unknown Lead" := by
  unfold renderedLeadName
  have hnone : leads.find? (fun l => l.id == lead_id) = none := by
    rw [List.find?_eq_none]
    intro x hx
    simpa using h x hx
  rw [hnone]

/-- Witness for C7 at a concrete snapshot missing the referenced lead. -/
theorem unknown_lead_renders_fallback_witness :
    renderedLeadName [sampleLead] "nope" = "Unknown Lead" :=
  unknown_lead_renders_fallback [sampleLead] "nope" (by decide)

/-- C9: the Recent Notes panel renders exactly the first five notes of
the local list (so at most 5), and the Recent Follow-ups panel renders
exactly the first ten follow-ups (so at most 10); entries beyond those
prefixes are never rendered. -/
theorem recent_render_limits (ns : List Note) (fus : List FollowUp) :
    recentNotesRendered ns = ns.take 5
  ∧ (recentNotesRendered ns).length ≤ 5
  ∧ recentFollowUpsRendered fus = fus.take 10
  ∧ (recentFollowUpsRendered fus).length ≤ 10 := by
  refine ⟨rfl, ?_, rfl, ?_⟩ <;>
    simp [recentNotesRendered, recentFollowUpsRendered, jsSlice, List.length_take]

theorem mem_getLeadsByStatus {leads : List Lead} {s : String} {l : Lead} :
    l ∈ getLeadsByStatus leads s ↔ l ∈ leads ∧ l.status = s := by
  simp [getLeadsByStatus]

theorem sum_status_group_lengths_le (leads : List Lead) :
    (leadStatusLabels.map (fun s => (getLeadsByStatus leads s).length)).sum
      ≤ leads.length := by
  induction leads with
  | nil => simp [getLeadsByStatus, leadStatusLabels]
  | cons a l ih =>
    simp only [getLeadsByStatus, leadStatusLabels, List.map_cons, List.map_nil,
      List.sum_cons, List.sum_nil, List.filter_cons, List.length_cons] at ih ⊢
    by_cases h1 : a.status = "new" <;> by_cases h2 : a.status = "contacted" <;>
      by_cases h3 : a.status = "qualified" <;> by_cases h4 : a.status = "closed" <;>
      simp_all <;> omega

/-- C10: the four status groupings computed by `getLeadsByStatus` are
pairwise disjoint (a lead in two groupings forces the two status labels
equal); a lead in the list lies in exactly one of the four groupings when
its status is one of the four labels and in none otherwise; hence the sum
of the four stats-card counts never exceeds the number of leads, and can
be strictly smaller. -/
theorem getLeadsByStatus_partition (leads : List Lead) :
    (∀ s₁ s₂ l, l ∈ getLeadsByStatus leads s₁ → l ∈ getLeadsByStatus leads s₂ → s₁ = s₂)
  ∧ (∀ l, l ∈ leads →
      (leadStatusLabels.filter (fun s => decide (l ∈ getLeadsByStatus leads s))).length
        = if l.status ∈ leadStatusLabels then 1 else 0)
  ∧ (leadStatusLabels.map (fun s => (getLeadsByStatus leads s).length)).sum ≤ leads.length
  ∧ (∃ ls : List Lead,
      (leadStatusLabels.map (fun s => (getLeadsByStatus ls s).length)).sum < ls.length) := by
  refine ⟨?_, ?_, sum_status_group_lengths_le leads, ?_⟩
  · intro s₁ s₂ l h1 h2
    rw [mem_getLeadsByStatus] at h1 h2
    rw [← h1.2, ← h2.2]
  · intro l hl
    have hcongr : leadStatusLabels.filter (fun s => decide (l ∈ getLeadsByStatus leads s))
        = leadStatusLabels.filter (fun s => l.status == s) := by
      apply List.filter_congr
      intro s _
      rw [Bool.eq_iff_iff]
      simp [mem_getLeadsByStatus, hl]
    rw [hcongr]
    by_cases h1 : l.status = "new" <;> by_cases h2 : l.status = "contacted" <;>
      by_cases h3 : l.status = "qualified" <;> by_cases h4 : l.status = "closed" <;>
      simp_all [leadStatusLabels]
  · exact ⟨[{ sampleLead with status := "other" }], by decide⟩

/-- Witness for C10 at a concrete one-lead list. -/
theorem getLeadsByStatus_partition_witness :
    (leadStatusLabels.filter
        (fun s => decide (sampleLead ∈ getLeadsByStatus [sampleLead] s))).length
      = if sampleLead.status ∈ leadStatusLabels then 1 else 0 :=
  (getLeadsByStatus_partition [sampleLead]).2.1 sampleLead (by decide)

/-- C8: for every starting database state, the migration deletes all
rows from exactly the seven tables `notes`, `handle_customer_data`,
`leads`, `targets`, `packages`, `products`, `users` (the `follow_ups`
rows are untouched), leaves the users table holding exactly the one
seeded administrative row via the id-keyed upsert, which is idempotent
(running the upsert again leaves the same single row), puts all seven
tables in the realtime publication, and creates exactly one SELECT
policy per table. -/
theorem migration_effects (db : DBState) :
    migrationDeleteTargets
        = [.notes, .handle_customer_data, .leads, .targets, .packages, .products, .users]
  ∧ (runMigration db).usersRows = [adminUser]
  ∧ (runMigration db).notesRows = []
  ∧ (runMigration db).handleCustomerRows = []
  ∧ (runMigration db).leadsRows = []
  ∧ (runMigration db).targetsRows = []
  ∧ (runMigration db).packagesRows = []
  ∧ (runMigration db).productsRows = []
  ∧ (runMigration db).followUpsRows = db.followUpsRows
  ∧ upsertUserById (runMigration db).usersRows adminUser = [adminUser]
  ∧ Table.users ∈ (runMigration db).publication
  ∧ Table.products ∈ (runMigration db).publication
  ∧ Table.packages ∈ (runMigration db).publication
  ∧ Table.leads ∈ (runMigration db).publication
  ∧ Table.notes ∈ (runMigration db).publication
  ∧ Table.targets ∈ (runMigration db).publication
  ∧ Table.handle_customer_data ∈ (runMigration db).publication
  ∧ migrationCreatedPolicies
      = [(.users, "SELECT"), (.products, "SELECT"), (.packages, "SELECT"),
         (.leads, "SELECT"), (.notes, "SELECT"), (.targets, "SELECT"),
         (.handle_customer_data, "SELECT")] := by
  refine ⟨by decide, rfl, rfl, rfl, rfl, rfl, rfl, rfl, rfl, rfl,
    ?_, ?_, ?_, ?_, ?_, ?_, ?_, by decide⟩
  all_goals
    simp [runMigration, migration, execStmt, deleteTable, mem_insertPub_iff]
